import Mathlib

/-!
Verification of the `error-repr` crate: the generic `Error<K>` container
(src/error.rs), the `ErrorKind` trait family (src/kind.rs), and the
conversion protocol with the platform I/O error type (`std::io::Error`).

The embedding models the crate with every feature enabled (`alloc`, `std`,
`error-track_caller`): the `Boxed` payload variant, the conversions with the
platform error, and the caller-location field are all present. The platform
I/O error type itself is external to the crate and is modelled from the
spec's description of it (a coarse kind enumeration, an optional raw OS
code, an optional owned boxed payload); its platform-specific pieces (the
decoding of a raw code into a coarse kind, the display strings) are passed
as explicit parameters.
-/

namespace ErrorRepr

/-- The raw type of an OS error code (`RawOsError` in src/lib.rs): `i32` on
most targets, `isize` on some. The crate performs no arithmetic on codes, so
it is modelled as an unbounded integer. -/
abbrev RawOsError := Int

/-- A source-code location captured at construction under the
`error-track_caller` feature (`core::panic::Location`: file, line, column). -/
structure Location where
  file : String
  line : Nat
  col : Nat
deriving DecidableEq

/-- Modelled from the spec: the platform's coarse I/O error classification
(`std::io::ErrorKind`), an external enumeration of which only a
representative set of variants is included. -/
inductive IoErrorKind where
  | NotFound
  | PermissionDenied
  | StorageFull
  | InvalidInput
  | Other
deriving DecidableEq

/-- Modelled from the spec: an owned boxed dynamic error object
(`Box<dyn core::error::Error + Send + Sync + 'static>`). It is either the
lifting of a string message (the `From<&str>` conversion, whose concrete
type is private, so it cannot be downcast to a caller's type) or some other
concrete error value, identified by a type tag, together with its display
text. -/
inductive ErrObj where
  | strMsg (s : String)
  | concrete (tag : Nat) (text : String)
deriving DecidableEq

/-- Display text of a boxed error object. -/
def ErrObj.display : ErrObj → String
  | .strMsg s => s
  | .concrete _ t => t

/-- Modelled from the spec: downcasting the boxed object to its original
concrete type succeeds only for a `concrete` value; the lifting of a string
message is not downcastable. -/
def ErrObj.downcastConcrete : ErrObj → Option (Nat × String)
  | .strMsg _ => none
  | .concrete tag t => some (tag, t)

/-- The payload of an `Error` (`ErrorPayload` in src/error.rs): exactly one
of the four shapes is active. -/
inductive ErrorPayload where
  | Simple
  | RawOsError (code : RawOsError)
  | Message (m : String)
  | Error (e : ErrObj)
deriving DecidableEq

/-- The primary `Error` type of the crate (src/error.rs): a kind, a payload,
and (under `error-track_caller`) the caller location, an intentionally
unused field. -/
structure Error (K : Type) where
  kind : K
  payload : ErrorPayload
  caller_location : Location

/-- The `ErrorKind` trait (src/kind.rs): a copyable kind type with an
`OTHER` constant, an uncategorized value, and a `Display` implementation
modelled as a function to `String`. -/
class ErrorKind (K : Type) where
  OTHER : K
  uncategorized : K
  display : K → String

/-- The `FromRawOsError` trait (src/kind.rs): kinds constructible from a raw
OS error code. -/
class FromRawOsError (K : Type) extends ErrorKind K where
  from_raw_os_error : RawOsError → K

/-- The `FromIoKind` trait (src/kind.rs): kinds constructible from the
platform's coarse classification. -/
class FromIoKind (K : Type) extends ErrorKind K where
  from_io_error_kind : IoErrorKind → K

/-- The `IntoIoKind` trait (src/kind.rs): kinds convertible to the
platform's coarse classification. -/
class IntoIoKind (K : Type) extends ErrorKind K where
  into_io_error_kind : K → IoErrorKind

/-- `Error::internal_new` (src/error.rs): the caller location captured by
`track_caller` is passed explicitly as `loc`. -/
def Error.internal_new {K : Type} (loc : Location) (kind : K) (payload : ErrorPayload) : Error K :=
  { kind := kind, payload := payload, caller_location := loc }

/-- `Error::new_simple` (src/error.rs). -/
def Error.new_simple {K : Type} (loc : Location) (kind : K) : Error K :=
  Error.internal_new loc kind .Simple

/-- `Error::new_with_message` (src/error.rs). -/
def Error.new_with_message {K : Type} (loc : Location) (kind : K) (msg : String) : Error K :=
  Error.internal_new loc kind (.Message msg)

/-- `Error::new` (src/error.rs): a kind and a custom boxed payload. -/
def Error.new {K : Type} (loc : Location) (kind : K) (error : ErrObj) : Error K :=
  Error.internal_new loc kind (.Error error)

/-- `Error::raw_os_error` (src/error.rs): the raw code, only when the
payload shape is `RawOsError`. -/
def Error.raw_os_error {K : Type} (e : Error K) : Option RawOsError :=
  match e.payload with
  | .RawOsError c => some c
  | _ => none

/-- `Error::into_error` (src/error.rs): the boxed payload for `Error`
payloads, the message lifted into a boxed error object for `Message`
payloads, absence otherwise. -/
def Error.into_error {K : Type} (e : Error K) : Option ErrObj :=
  match e.payload with
  | .Error payload => some payload
  | .Message m => some (.strMsg m)
  | _ => none

/-- `Error::into_inner` (src/error.rs): the boxed payload only when the
payload shape is `Error`. -/
def Error.into_inner {K : Type} (e : Error K) : Option ErrObj :=
  match e.payload with
  | .Error payload => some payload
  | _ => none

/-- The `Display` implementation for `Error<K>` (src/error.rs): the kind's
display text, then a payload-dependent suffix. -/
def Error.display {K : Type} [ErrorKind K] (e : Error K) : String :=
  ErrorKind.display e.kind ++
    match e.payload with
    | .Simple => ""
    | .RawOsError os => " (raw os error " ++ toString os ++ ")"
    | .Message m => ": " ++ m
    | .Error error => ": " ++ error.display

/-- `Error::other_simple` (src/error.rs). -/
def Error.other_simple {K : Type} [ErrorKind K] (loc : Location) : Error K :=
  Error.internal_new loc ErrorKind.OTHER .Simple

/-- `Error::other_with_message` (src/error.rs). -/
def Error.other_with_message {K : Type} [ErrorKind K] (loc : Location) (msg : String) : Error K :=
  Error.internal_new loc ErrorKind.OTHER (.Message msg)

/-- `Error::other` (src/error.rs). -/
def Error.other {K : Type} [ErrorKind K] (loc : Location) (error : ErrObj) : Error K :=
  Error.internal_new loc ErrorKind.OTHER (.Error error)

/-- `Error::uncategorized_simple` (src/error.rs). -/
def Error.uncategorized_simple {K : Type} [ErrorKind K] (loc : Location) : Error K :=
  Error.internal_new loc ErrorKind.uncategorized .Simple

/-- `Error::uncategorized_with_message` (src/error.rs). -/
def Error.uncategorized_with_message {K : Type} [ErrorKind K] (loc : Location) (msg : String) : Error K :=
  Error.internal_new loc ErrorKind.uncategorized (.Message msg)

/-- `Error::from_raw_os_error` (src/error.rs): kind computed by the raw-OS
mapping, payload `RawOsError(code)`. -/
def Error.from_raw_os_error {K : Type} [FromRawOsError K] (loc : Location) (code : RawOsError) : Error K :=
  Error.internal_new loc (FromRawOsError.from_raw_os_error code) (.RawOsError code)

/-- Modelled from the spec: the external platform I/O error type
(`std::io::Error`), with a coarse kind enumeration, an optional raw OS
code, and an optional owned inner payload. Its three representation shapes:
built from a raw code, from a kind alone, or from a kind plus a boxed
payload. -/
inductive IoError where
  | os (code : RawOsError)
  | simple (kind : IoErrorKind)
  | custom (kind : IoErrorKind) (payload : ErrObj)
deriving DecidableEq

/-- Modelled from the spec: `std::io::Error::kind`. The platform derives
the coarse classification of a raw-code error from the code by a
platform-specific decoding, passed here as the parameter `dec`. -/
def IoError.kind (dec : RawOsError → IoErrorKind) : IoError → IoErrorKind
  | .os code => dec code
  | .simple k => k
  | .custom k _ => k

/-- Modelled from the spec: `std::io::Error::raw_os_error`. -/
def IoError.raw_os_error : IoError → Option RawOsError
  | .os code => some code
  | _ => none

/-- Modelled from the spec: `std::io::Error::into_inner`, the optional
owned inner payload. -/
def IoError.into_inner : IoError → Option ErrObj
  | .custom _ p => some p
  | _ => none

/-- Modelled from the spec: `std::io::Error::new`, building a platform
error from a kind and an owned boxed payload. -/
def IoError.new (kind : IoErrorKind) (payload : ErrObj) : IoError :=
  .custom kind payload

/-- Modelled from the spec: `std::io::Error::from_raw_os_error`. -/
def IoError.from_raw_os_error (code : RawOsError) : IoError :=
  .os code

/-- Modelled from the spec: the platform error's displayed text. `osText`
gives the platform's message for a raw code and `kindText` the fixed text
of a coarse kind; a custom error displays its payload's text. -/
def IoError.display (osText : RawOsError → String) (kindText : IoErrorKind → String) : IoError → String
  | .os code => osText code ++ " (os error " ++ toString code ++ ")"
  | .simple k => kindText k
  | .custom _ p => p.display

/-- `impl From<std::io::Error> for Error<K>` (src/error.rs): kind from the
from-platform-kind mapping applied to the I/O error's classification;
payload `RawOsError` if a raw code is present, else `Error` if an inner
payload is present, else `Simple`. `dec` is the platform decoding used by
`value.kind()`; `loc` is the caller location captured by `internal_new`. -/
def errorOfIoError {K : Type} [FromIoKind K] (dec : RawOsError → IoErrorKind)
    (loc : Location) (value : IoError) : Error K :=
  let kind : K := FromIoKind.from_io_error_kind (value.kind dec)
  match value.raw_os_error with
  | some code => Error.internal_new loc kind (.RawOsError code)
  | none =>
    match value.into_inner with
    | some data => Error.internal_new loc kind (.Error data)
    | none => Error.internal_new loc kind .Simple

/-- `impl From<Error<K>> for std::io::Error` (src/error.rs): built directly
from the raw code when one is present; otherwise from the to-platform-kind
mapping of the kind, with the extracted payload or the placeholder text
`"(no context)"`. -/
def ioErrorOfError {K : Type} [IntoIoKind K] (value : Error K) : IoError :=
  match value.raw_os_error with
  | some code => IoError.from_raw_os_error code
  | none =>
    let kind : IoErrorKind := IntoIoKind.into_io_error_kind value.kind
    match value.into_error with
    | some payload => IoError.new kind payload
    | none => IoError.new kind (.strMsg "(no context)")

/-- Modelled from the spec: the fixed display text of the platform's coarse
kinds (`Display for std::io::ErrorKind`). -/
def IoErrorKind.text : IoErrorKind → String
  | .NotFound => "entity not found"
  | .PermissionDenied => "permission denied"
  | .StorageFull => "no space left on device"
  | .InvalidInput => "invalid input parameter"
  | .Other => "other error"

/-- The built-in `ErrorKind` implementation for `std::io::ErrorKind`
(src/kind.rs): `OTHER` is `Other`, and `uncategorized()` also returns
`Other`, since the platform enumeration has no properly uncategorized
public value. -/
instance : ErrorKind IoErrorKind where
  OTHER := .Other
  uncategorized := .Other
  display := IoErrorKind.text

/-- The built-in `FromIoKind` implementation for `std::io::ErrorKind`
(src/kind.rs): the identity. -/
instance : FromIoKind IoErrorKind where
  from_io_error_kind k := k

/-- The built-in `IntoIoKind` implementation for `std::io::ErrorKind`
(src/kind.rs): the identity. -/
instance : IntoIoKind IoErrorKind where
  into_io_error_kind k := k

/-- A small user-defined kind type, used to instantiate the generic
theorems at concrete inputs. -/
inductive TestKind where
  | notFound
  | storageFull
  | other
  | uncat
deriving DecidableEq

/-- Display text of the test kind. -/
def TestKind.text : TestKind → String
  | .notFound => "not found"
  | .storageFull => "storage full"
  | .other => "other"
  | .uncat => "uncategorized"

instance : ErrorKind TestKind where
  OTHER := .other
  uncategorized := .uncat
  display := TestKind.text

instance : FromIoKind TestKind where
  from_io_error_kind
    | .NotFound => .notFound
    | .StorageFull => .storageFull
    | _ => .other

instance : IntoIoKind TestKind where
  into_io_error_kind
    | .notFound => .NotFound
    | .storageFull => .StorageFull
    | .other => .Other
    | .uncat => .Other

/-- A sample platform decoding of raw codes (errno-style), for concrete
instantiations. -/
def testDecode (raw : RawOsError) : IoErrorKind :=
  if raw = 2 then .NotFound else if raw = 28 then .StorageFull else .Other

instance : FromRawOsError TestKind where
  from_raw_os_error raw := FromIoKind.from_io_error_kind (testDecode raw)

/-- String append is associative. -/
theorem strAppendAssoc (a b c : String) : a ++ b ++ c = a ++ (b ++ c) := by
  apply String.ext
  simp [String.data_append, List.append_assoc]

/-- C1: converting an `Error<K>` into the platform I/O error. With a
`RawOsError c` payload the result is built directly from the raw code, so
its coarse classification is the platform's decoding of `c`, not the
to-platform-kind mapping of the stored kind. Otherwise the classification
is `into_io_error_kind` of the kind, and the payload is the value
`into_error()` yields when that is present (the boxed payload for `Error`,
the lifted message for `Message`), else a boxed payload displaying exactly
`"(no context)"`. -/
theorem ioErrorOfError_spec {K : Type} [IntoIoKind K] (k : K) (l : Location)
    (c : RawOsError) (m : String) (p : ErrObj) (dec : RawOsError → IoErrorKind) :
    ioErrorOfError (Error.internal_new l k (.RawOsError c)) = IoError.from_raw_os_error c
    ∧ (ioErrorOfError (Error.internal_new l k (.RawOsError c))).kind dec = dec c
    ∧ ioErrorOfError (Error.internal_new l k (.Error p))
        = IoError.new (IntoIoKind.into_io_error_kind k) p
    ∧ (Error.internal_new l k (.Error p)).into_error = some p
    ∧ ioErrorOfError (Error.internal_new l k (.Message m))
        = IoError.new (IntoIoKind.into_io_error_kind k) (.strMsg m)
    ∧ (Error.internal_new l k (.Message m)).into_error = some (.strMsg m)
    ∧ ioErrorOfError (Error.internal_new l k .Simple)
        = IoError.new (IntoIoKind.into_io_error_kind k) (.strMsg "(no context)")
    ∧ (Error.internal_new l k .Simple).into_error = none
    ∧ (ErrObj.strMsg "(no context)").display = "(no context)"
    ∧ (IoError.new (IntoIoKind.into_io_error_kind k) p).kind dec
        = IntoIoKind.into_io_error_kind k :=
  ⟨rfl, rfl, rfl, rfl, rfl, rfl, rfl, rfl, rfl, rfl⟩

/-- C2: converting a platform I/O error into `Error<K>`: the kind is always
the from-platform-kind mapping applied to the I/O error's coarse
classification, and the payload is chosen with fixed precedence — the raw
OS code if present, else the owned inner payload boxed, else `Empty`
(`Simple`). -/
theorem errorOfIoError_spec {K : Type} [FromIoKind K] (dec : RawOsError → IoErrorKind)
    (l : Location) (v : IoError) :
    (errorOfIoError (K := K) dec l v).kind = FromIoKind.from_io_error_kind (v.kind dec)
    ∧ (errorOfIoError (K := K) dec l v).payload
        = match v.raw_os_error with
          | some code => .RawOsError code
          | none =>
            match v.into_inner with
            | some data => .Error data
            | none => .Simple := by
  cases v <;> exact ⟨rfl, rfl⟩

/-- C3: round trip of an `Error<K>` with a `RawOsError c` payload through
the platform I/O error: the result has `raw_os_error = some c` and the
original kind, under the hypothesis that the to/from platform-kind mappings
are mutually inverse between the stored kind and the classification the
platform derives from `c`. -/
theorem raw_code_round_trip {K : Type} [IntoIoKind K] [FromIoKind K]
    (dec : RawOsError → IoErrorKind) (l l2 : Location) (k : K) (c : RawOsError)
    (_hto : IntoIoKind.into_io_error_kind k = dec c)
    (hfrom : FromIoKind.from_io_error_kind (dec c) = k) :
    (errorOfIoError (K := K) dec l2
        (ioErrorOfError (Error.internal_new l k (.RawOsError c)))).raw_os_error = some c
    ∧ (errorOfIoError (K := K) dec l2
        (ioErrorOfError (Error.internal_new l k (.RawOsError c)))).kind = k :=
  ⟨rfl, hfrom⟩

/-- C3 witness: the round trip at `TestKind` with raw code 28, whose
platform classification `StorageFull` is an inverse pair with
`TestKind.storageFull` under the two mappings. -/
theorem raw_code_round_trip_witness :
    (errorOfIoError (K := TestKind) testDecode ⟨"b", 2, 2⟩
        (ioErrorOfError (Error.internal_new ⟨"a", 1, 1⟩ TestKind.storageFull
          (.RawOsError 28)))).raw_os_error = some 28
    ∧ (errorOfIoError (K := TestKind) testDecode ⟨"b", 2, 2⟩
        (ioErrorOfError (Error.internal_new ⟨"a", 1, 1⟩ TestKind.storageFull
          (.RawOsError 28)))).kind = TestKind.storageFull :=
  raw_code_round_trip testDecode ⟨"a", 1, 1⟩ ⟨"b", 2, 2⟩ TestKind.storageFull 28
    (by decide) (by decide)

/-- C4 counterexample: converting `Error::uncategorized_simple()` at the
built-in platform kind yields a platform error that does carry an owned
inner payload, so the result is not payload-less as claimed. -/
theorem uncategorized_simple_not_payload_less :
    (ioErrorOfError (Error.uncategorized_simple (K := IoErrorKind)
      ⟨"f", 1, 1⟩)).into_inner.isSome = true :=
  rfl

/-- C4 amended: converting `Error::uncategorized_simple()` to the platform
I/O error yields an error classified by `into_io_error_kind` of the
uncategorized kind that carries a boxed textual payload (it is not
payload-less), has no raw code, and whose displayed text is exactly
`"(no context)"`. -/
theorem uncategorized_simple_conversion {K : Type} [IntoIoKind K] (l : Location)
    (osText : RawOsError → String) (kindText : IoErrorKind → String) :
    ioErrorOfError (Error.uncategorized_simple (K := K) l)
      = IoError.new (IntoIoKind.into_io_error_kind (ErrorKind.uncategorized : K))
          (.strMsg "(no context)")
    ∧ (ioErrorOfError (Error.uncategorized_simple (K := K) l)).into_inner
      = some (.strMsg "(no context)")
    ∧ (ioErrorOfError (Error.uncategorized_simple (K := K) l)).display osText kindText
      = "(no context)"
    ∧ (ioErrorOfError (Error.uncategorized_simple (K := K) l)).raw_os_error = none :=
  ⟨rfl, rfl, rfl, rfl⟩

/-- C5: the `Display` output of an `Error<K>` is the kind's display text
followed by nothing for `Simple`, `" (raw os error {code})"` for
`RawOsError`, `": {message}"` for `Message`, and `": {payload display}"`
for a boxed payload; in particular `other_with_message "disk full"` formats
as the display of `OTHER` followed by `": disk full"`. -/
theorem display_spec {K : Type} [ErrorKind K] (k : K) (l : Location)
    (c : RawOsError) (m : String) (p : ErrObj) :
    (Error.internal_new l k .Simple).display = ErrorKind.display k
    ∧ (Error.internal_new l k (.RawOsError c)).display
        = ErrorKind.display k ++ " (raw os error " ++ toString c ++ ")"
    ∧ (Error.internal_new l k (.Message m)).display = ErrorKind.display k ++ ": " ++ m
    ∧ (Error.internal_new l k (.Error p)).display
        = ErrorKind.display k ++ ": " ++ p.display
    ∧ (Error.other_with_message (K := K) l "disk full").display
        = ErrorKind.display (ErrorKind.OTHER : K) ++ ": disk full" := by
  refine ⟨?_, ?_, ?_, ?_, ?_⟩
  · show ErrorKind.display k ++ "" = ErrorKind.display k
    exact String.append_empty _
  · show ErrorKind.display k ++ (" (raw os error " ++ toString c ++ ")")
        = ErrorKind.display k ++ " (raw os error " ++ toString c ++ ")"
    simp only [strAppendAssoc]
  · show ErrorKind.display k ++ (": " ++ m) = ErrorKind.display k ++ ": " ++ m
    simp only [strAppendAssoc]
  · show ErrorKind.display k ++ (": " ++ p.display)
        = ErrorKind.display k ++ ": " ++ p.display
    simp only [strAppendAssoc]
  · show ErrorKind.display (ErrorKind.OTHER : K) ++ (": " ++ "disk full")
        = ErrorKind.display (ErrorKind.OTHER : K) ++ ": disk full"
    rfl

/-- C6: `into_error` consumes the container and yields the owned boxed
error object exactly for `Error` (boxed) or `Message` payloads — a message
is lifted into a boxed object that is not downcastable and displays the
original message — and yields absence for `Simple` and `RawOsError`
payloads. `into_inner` yields the boxed object only for an originally
boxed payload, and absence otherwise, including for a container built via
`new_with_message`. -/
theorem payload_extraction_spec {K : Type} (k : K) (l : Location) (c : RawOsError)
    (m : String) (p : ErrObj) :
    (Error.internal_new l k (.Error p)).into_error = some p
    ∧ (Error.internal_new l k (.Message m)).into_error = some (.strMsg m)
    ∧ (ErrObj.strMsg m).display = m
    ∧ (ErrObj.strMsg m).downcastConcrete = none
    ∧ (Error.internal_new l k .Simple).into_error = none
    ∧ (Error.internal_new l k (.RawOsError c)).into_error = none
    ∧ (Error.internal_new l k (.Error p)).into_inner = some p
    ∧ (Error.internal_new l k (.Message m)).into_inner = none
    ∧ (Error.internal_new l k .Simple).into_inner = none
    ∧ (Error.internal_new l k (.RawOsError c)).into_inner = none
    ∧ (Error.new_with_message l k m).into_inner = none
    ∧ (Error.new_with_message l k m).into_error = some (.strMsg m) :=
  ⟨rfl, rfl, rfl, rfl, rfl, rfl, rfl, rfl, rfl, rfl, rfl, rfl⟩

/-- Splitting the leading space off the raw-os-error display suffix. -/
theorem strSplitHead (x : String) :
    " (raw os error " ++ x = " " ++ ("(raw os error " ++ x) := by
  rw [← strAppendAssoc]
  rfl

/-- C7: `Error::from_raw_os_error c` has `raw_os_error = some c`, kind
`K::from_raw_os_error c`, and a formatted text containing
`"(raw os error " ++ c ++ ")"` (as a substring decomposition). -/
theorem from_raw_os_error_spec {K : Type} [FromRawOsError K] (c : RawOsError)
    (l : Location) :
    (Error.from_raw_os_error (K := K) l c).raw_os_error = some c
    ∧ (Error.from_raw_os_error (K := K) l c).kind
        = FromRawOsError.from_raw_os_error c
    ∧ ∃ pre post : String,
        (Error.from_raw_os_error (K := K) l c).display
          = pre ++ ("(raw os error " ++ toString c ++ ")") ++ post := by
  refine ⟨rfl, rfl,
    ErrorKind.display (FromRawOsError.from_raw_os_error (K := K) c) ++ " ", "", ?_⟩
  show ErrorKind.display (FromRawOsError.from_raw_os_error (K := K) c)
      ++ (" (raw os error " ++ toString c ++ ")") = _
  rw [String.append_empty]
  simp only [strAppendAssoc]
  rw [strSplitHead]

/-- C8: `raw_os_error` returns the code exactly when the payload shape is
`RawOsError`, and absence for every other shape (including a boxed or
message payload with an embedded code, covered by the arbitrary `p` and
`m`); in particular `new_with_message` always yields absence. -/
theorem raw_os_error_spec {K : Type} (k : K) (l : Location) (c : RawOsError)
    (m : String) (p : ErrObj) :
    (Error.internal_new l k (.RawOsError c)).raw_os_error = some c
    ∧ (Error.internal_new l k .Simple).raw_os_error = none
    ∧ (Error.internal_new l k (.Message m)).raw_os_error = none
    ∧ (Error.internal_new l k (.Error p)).raw_os_error = none
    ∧ (Error.new_with_message l k m).raw_os_error = none :=
  ⟨rfl, rfl, rfl, rfl, rfl⟩

/-- C9 counterexample: for the built-in platform kind implementation
(`ErrorKind` for `std::io::ErrorKind`), the value returned by
`uncategorized()` equals the `OTHER` constant — both are `Other` — so it is
not distinct as claimed. -/
theorem io_kind_uncategorized_eq_other :
    (ErrorKind.uncategorized : IoErrorKind) = (ErrorKind.OTHER : IoErrorKind) :=
  rfl

/-- C9 amended: for the built-in platform kind implementation both
`uncategorized()` and `OTHER` are the `Other` variant — the platform
enumeration offers no properly uncategorized value, so the implementation
deliberately reuses `Other` and the two coincide there. -/
theorem io_kind_uncategorized_spec :
    (ErrorKind.uncategorized : IoErrorKind) = IoErrorKind.Other
    ∧ (ErrorKind.OTHER : IoErrorKind) = IoErrorKind.Other :=
  ⟨rfl, rfl⟩

/-- C10: the captured construction location never influences user-facing
output or any accessor: two errors with equal kind and payload but
different locations agree on `Display`, `kind`, `raw_os_error`,
`into_error`, `into_inner`, and the conversion to the platform I/O
error. -/
theorem location_independence {K : Type} [IntoIoKind K] (k : K)
    (p : ErrorPayload) (l1 l2 : Location) :
    (Error.internal_new l1 k p).display = (Error.internal_new l2 k p).display
    ∧ (Error.internal_new l1 k p).kind = (Error.internal_new l2 k p).kind
    ∧ (Error.internal_new l1 k p).raw_os_error = (Error.internal_new l2 k p).raw_os_error
    ∧ (Error.internal_new l1 k p).into_error = (Error.internal_new l2 k p).into_error
    ∧ (Error.internal_new l1 k p).into_inner = (Error.internal_new l2 k p).into_inner
    ∧ ioErrorOfError (Error.internal_new l1 k p)
        = ioErrorOfError (Error.internal_new l2 k p) :=
  ⟨rfl, rfl, rfl, rfl, rfl, rfl⟩

end ErrorRepr
